import Mathlib

/-!
Verification development for the divergence detection/correction core of the
financial-etl-framework repository: the detection rules and correction policy
of DivergenceProcessor, the audit ledger operations of AuditLogger, and the
session orchestration of DailyProcessor, embedded shallowly.  Numeric column
values are modelled as rationals; dates are ISO `YYYY-MM-DD` strings, on which
lexicographic string order agrees with date order.  Database effects are
modelled by explicit event traces and failure oracles.
-/

namespace FinancialEtl

/-- Scalar values carried by warehouse rows and divergence payloads:
numeric (modelled as a rational) or textual. -/
inductive Valor where
  | num : ℚ → Valor
  | str : String → Valor
deriving DecidableEq, Repr

/-- One row of the warehouse view `byd.bonus_view`, as read by the three
detection queries of DivergenceProcessor.  Nullable columns are `Option`s. -/
structure BonusRow where
  idnfsexterno : String
  des_modelo : Option String := none
  apontamento : Option String := none
  competencia : Option String := none
  bonus_utilizado : Option String := none
  valor_bonus : Option ℚ := none
  trade : Option ℚ := none
  bonus_dpto : Option ℚ := none
  trade_mkt_dpto : Option ℚ := none
  dta_processamento : Option String := none
deriving DecidableEq, Repr

/-- Coalescing applied by both sides of the code: the SQL
`COALESCE(CAST(x AS NUMERIC), 0)` and the Python `float(x) if x else 0.0`
both send a missing (or falsy-zero) value to 0. -/
def coalesceQ (x : Option ℚ) : ℚ := x.getD 0

/-- The transient dataclass `Divergencia` produced by the detector. -/
structure Divergencia where
  idnfsexterno : String
  tipo : String
  campo_afetado : String
  valor_atual : Option Valor
  valor_esperado : Option Valor
  competencia : Option String
  confianca : ℚ := 1
  regras_violadas : List String := []
  dados_adicionais : List (String × Option Valor) := []
deriving DecidableEq, Repr

/-- Lexicographic order on character lists, used to compare ISO dates. -/
def lexLeb : List Char → List Char → Bool
  | [], _ => true
  | _ :: _, [] => false
  | a :: as, b :: bs =>
    if a.toNat < b.toNat then true
    else if b.toNat < a.toNat then false
    else lexLeb as bs

/-- Order on ISO `YYYY-MM-DD` date strings: lexicographic comparison, which
agrees with date order for this format. -/
def strLeb (a b : String) : Bool := lexLeb a.data b.data

/-- SQL predicate `dta_processamento BETWEEN lo AND hi`; a NULL date never
matches a BETWEEN condition. -/
def dtaBetween (r : BonusRow) (lo hi : String) : Bool :=
  match r.dta_processamento with
  | some d => strLeb lo d && strLeb d hi
  | none => false

/-- WHERE clause of the trade-marketing query: `apontamento =
'Revisar Divergência!'`, plus the optional date window added only when both
bounds are supplied. -/
def tradeSelected (data_inicio data_fim : Option String) (r : BonusRow) : Bool :=
  r.apontamento == some "Revisar Divergência!" &&
    (match data_inicio, data_fim with
     | some lo, some hi => dtaBetween r lo hi
     | _, _ => true)

/-- Loop body of `_detectar_divergencias_trade_marketing` for one fetched row:
one divergence per paired field whose department value differs from the
source value by more than 0.01. -/
def tradeDivsForRow (r : BonusRow) : List Divergencia :=
  let valor_bonus := coalesceQ r.valor_bonus
  let trade := coalesceQ r.trade
  let bonus_dpto_atual := coalesceQ r.bonus_dpto
  let trade_mkt_dpto_atual := coalesceQ r.trade_mkt_dpto
  let extras : List (String × Option Valor) :=
    [("des_modelo", r.des_modelo.map Valor.str),
     ("bonus_utilizado", r.bonus_utilizado.map Valor.str),
     ("dta_processamento", r.dta_processamento.map Valor.str)]
  (if |bonus_dpto_atual - valor_bonus| > 1/100 then
    [{ idnfsexterno := r.idnfsexterno, tipo := "TRADE_MARKETING_BONUS",
       campo_afetado := "bonus_dpto",
       valor_atual := some (Valor.num bonus_dpto_atual),
       valor_esperado := some (Valor.num valor_bonus),
       competencia := r.competencia, confianca := 95/100,
       regras_violadas := ["BONUS_DPTO_DIVERGENTE"],
       dados_adicionais := extras }]
  else []) ++
  (if |trade_mkt_dpto_atual - trade| > 1/100 then
    [{ idnfsexterno := r.idnfsexterno, tipo := "TRADE_MARKETING_TRADE",
       campo_afetado := "trade_mkt_dpto",
       valor_atual := some (Valor.num trade_mkt_dpto_atual),
       valor_esperado := some (Valor.num trade),
       competencia := r.competencia, confianca := 95/100,
       regras_violadas := ["TRADE_MKT_DPTO_DIVERGENTE"],
       dados_adicionais := extras }]
  else [])

/-- Rule 1 of the detector, `_detectar_divergencias_trade_marketing`. -/
def detectar_divergencias_trade_marketing (data_inicio data_fim : Option String)
    (rows : List BonusRow) : List Divergencia :=
  (rows.filter (tradeSelected data_inicio data_fim)).flatMap tradeDivsForRow

/-- WHERE clause of the pending-verification query: sentinel status inside the
fixed historical window 2025-08-01 .. 2026-12-31 (the caller's dates are
ignored by this rule). -/
def pendenteSelected (r : BonusRow) : Bool :=
  r.bonus_utilizado == some "PENDENTE VERIFICACAO" &&
    dtaBetween r "2025-08-01" "2026-12-31"

/-- Loop body of `_detectar_pendentes_verificacao` for one fetched row.
`diasPendente` stands for the query's computed column
`EXTRACT(DAY FROM NOW() - dta_processamento)`, supplied by the database. -/
def pendenteDivsForRow (diasPendente : BonusRow → Int) (r : BonusRow) :
    List Divergencia :=
  [{ idnfsexterno := r.idnfsexterno, tipo := "PENDENTE_VERIFICACAO",
     campo_afetado := "bonus_utilizado",
     valor_atual := some (Valor.str "PENDENTE VERIFICACAO"),
     valor_esperado := none, competencia := r.competencia, confianca := 1/2,
     regras_violadas := ["VERIFICACAO_PENDENTE_PROLONGADA"],
     dados_adicionais :=
       [("dias_pendente", some (Valor.num (diasPendente r : ℚ))),
        ("dta_processamento", r.dta_processamento.map Valor.str)] }]

/-- Rule 2 of the detector, `_detectar_pendentes_verificacao`. -/
def detectar_pendentes_verificacao (diasPendente : BonusRow → Int)
    (rows : List BonusRow) : List Divergencia :=
  (rows.filter pendenteSelected).flatMap (pendenteDivsForRow diasPendente)

/-- WHERE clause of the value-range query: any of trade, valor_bonus,
bonus_dpto negative, or trade, valor_bonus above 100000 (after coalescing),
plus the optional date window. -/
def valoresSelected (data_inicio data_fim : Option String) (r : BonusRow) : Bool :=
  (decide (coalesceQ r.trade < 0) || decide (coalesceQ r.valor_bonus < 0) ||
   decide (coalesceQ r.bonus_dpto < 0) || decide (coalesceQ r.trade > 100000) ||
   decide (coalesceQ r.valor_bonus > 100000)) &&
  (match data_inicio, data_fim with
   | some lo, some hi => dtaBetween r lo hi
   | _, _ => true)

/-- Per-row rule list built by the Python loop of
`_detectar_divergencias_valores`: only trade and valor_bonus are re-checked. -/
def valoresRegrasVioladas (r : BonusRow) : List String :=
  let trade := coalesceQ r.trade
  let valor_bonus := coalesceQ r.valor_bonus
  (if trade < 0 then ["TRADE_VALOR_NEGATIVO"] else []) ++
  (if valor_bonus < 0 then ["BONUS_VALOR_NEGATIVO"] else []) ++
  (if trade > 100000 then ["TRADE_VALOR_OUTLIER"] else []) ++
  (if valor_bonus > 100000 then ["BONUS_VALOR_OUTLIER"] else [])

/-- Loop body of `_detectar_divergencias_valores` for one fetched row: a
single divergence is appended only when the re-checked rule list is
non-empty. -/
def valoresDivsForRow (r : BonusRow) : List Divergencia :=
  let regras := valoresRegrasVioladas r
  if regras = [] then [] else
    [{ idnfsexterno := r.idnfsexterno, tipo := "VALIDACAO_VALOR",
       campo_afetado := "valores_bonus", valor_atual := none,
       valor_esperado := none, competencia := r.competencia, confianca := 7/10,
       regras_violadas := regras,
       dados_adicionais :=
         [("trade", some (Valor.num (coalesceQ r.trade))),
          ("valor_bonus", some (Valor.num (coalesceQ r.valor_bonus)))] }]

/-- Rule 3 of the detector, `_detectar_divergencias_valores`. -/
def detectar_divergencias_valores (data_inicio data_fim : Option String)
    (rows : List BonusRow) : List Divergencia :=
  (rows.filter (valoresSelected data_inicio data_fim)).flatMap valoresDivsForRow

/-- `DivergenceProcessor.detectar_divergencias`: runs the three rule scans,
concatenates, then keeps divergences with confidence at least
`limite_confianca`.  The `tipo_divergencia` parameter is accepted by the
source but never used; it is kept here, unused, for fidelity. -/
def detectar_divergencias (diasPendente : BonusRow → Int) (rows : List BonusRow)
    (data_inicio data_fim : Option String)
    (tipo_divergencia : Option String := none)
    (limite_confianca : ℚ := 8/10) : List Divergencia :=
  let divergencias :=
    detectar_divergencias_trade_marketing data_inicio data_fim rows ++
    detectar_pendentes_verificacao diasPendente rows ++
    detectar_divergencias_valores data_inicio data_fim rows
  divergencias.filter (fun d => decide (limite_confianca ≤ d.confianca))

/-- Aggregate counts written into a processing-session row on finalization. -/
structure Metricas where
  total_registros_analisados : Nat
  divergencias_detectadas : Nat
  correcoes_aplicadas : Nat
  correcoes_pendentes : Nat
  erros_encontrados : Nat
deriving DecidableEq, Repr

/-- Database effects of the correction workflow, recorded in execution order.
Ledger identifiers are modelled by one fresh counter for both the operations
and divergences tables; snapshot payloads (dados_anteriores/posteriores) are
elided. -/
inductive LedgerEvent where
  | beginOp (opId : Nat) (tipo descricao usuario origem : String)
      (tabela : Option String)
  | endOp (opId : Nat) (status : String) (registros : Int) (erro : Option String)
  | recordDiv (divId opId : Nat) (idnf tipo statusProc : String) (confianca : ℚ)
  | updateDivStatus (divId : Nat) (novoStatus : String)
      (valorAplicado : Option Valor) (processadoPor : Option String)
  | readPrev (idnf campo : String)
  | updateTarget (campo : String) (valor : Option Valor) (idnf : String)
  | beginSession (sessaoId : Nat) (tipo : String)
  | endSession (sessaoId : Nat) (status : String) (metricas : Metricas)
  | commit
  | rollback
deriving DecidableEq, Repr

/-- Steps of `_aplicar_correcao_automatica` at which an exception can arise. -/
inductive AutoStep where
  | stepBegin      | stepReadPrev | stepUpdate | stepRecordDiv
  | stepUpdStatus  | stepEndOp    | stepCommit
deriving DecidableEq, Repr

/-- Failure oracle for one call to `_aplicar_correcao_automatica`: which step
(if any) raises and with what message; whether the FAILED finalization inside
the exception handler itself raises; and the UPDATE's reported row count. -/
structure AutoOutcome where
  failAt : Option (AutoStep × String) := none
  finalizeFailMsg : Option String := none
  rowsAffected : Int := 1
deriving DecidableEq, Repr

/-- Steps of `_registrar_divergencia_pendente` at which an exception can
arise (this helper has no exception handler of its own). -/
inductive PendStep where
  | stepBegin | stepRecordDiv | stepEndOp | stepCommit
deriving DecidableEq, Repr

/-- Failure oracle for one call to `_registrar_divergencia_pendente`. -/
structure PendOutcome where
  failAt : Option (PendStep × String) := none
deriving DecidableEq, Repr

/-- Result of one helper call as seen by `aplicar_correcoes`: a returned
boolean, or a propagated exception. -/
inductive CallResult where
  | ok (sucesso : Bool)
  | raised (msg : String)
deriving DecidableEq, Repr

/-- Exception handler of `_aplicar_correcao_automatica` for a failure raised
after the audited operation `opId` was opened: `conn.rollback()`, then a
FAILED finalization carrying the error message (which may itself raise, in
which case the ledger rolls back again and the exception propagates). -/
def autoFailHandler (ao : AutoOutcome) (opId : Nat) (msg : String) :
    List LedgerEvent × CallResult :=
  match ao.finalizeFailMsg with
  | some msg2 => ([.rollback, .rollback], .raised msg2)
  | none =>
      ([.rollback, .endOp opId "FAILED" 0 (some msg), .commit], .ok false)

/-- One call to `_aplicar_correcao_automatica` on divergence `d` with fresh
ledger counter `n`: the events executed, the next counter, and the outcome.
The happy path opens an audited UPDATE operation, reads the previous value,
writes the expected value, records the divergence, marks it AUTO_APPLIED,
finalizes SUCCESS with the row count, and commits. -/
def runAuto (ao : AutoOutcome) (d : Divergencia) (usuario : String) (n : Nat) :
    List LedgerEvent × Nat × CallResult :=
  let descricao := "Correcao automatica: " ++ d.tipo
  let began : List LedgerEvent :=
    [.beginOp n "UPDATE" descricao usuario "AUTOMATION" (some "byd.controladoria"),
     .commit]
  match ao.failAt with
  | some (.stepBegin, _) =>
      -- iniciar_operacao rolled back and re-raised; op_id never bound, so the
      -- handler only rolls back the connection and the call returns False.
      ([.rollback, .rollback], n, .ok false)
  | some (.stepReadPrev, msg) =>
      let (ev, res) := autoFailHandler ao n msg
      (began ++ ev, n + 1, res)
  | some (.stepUpdate, msg) =>
      let (ev, res) := autoFailHandler ao n msg
      (began ++ [.readPrev d.idnfsexterno d.campo_afetado] ++ ev, n + 1, res)
  | some (.stepRecordDiv, msg) =>
      let (ev, res) := autoFailHandler ao n msg
      (began ++
       [.readPrev d.idnfsexterno d.campo_afetado,
        .updateTarget d.campo_afetado d.valor_esperado d.idnfsexterno,
        .rollback] ++ ev, n + 1, res)
  | some (.stepUpdStatus, msg) =>
      let (ev, res) := autoFailHandler ao n msg
      (began ++
       [.readPrev d.idnfsexterno d.campo_afetado,
        .updateTarget d.campo_afetado d.valor_esperado d.idnfsexterno,
        .recordDiv (n + 1) n d.idnfsexterno d.tipo "DETECTED" d.confianca,
        .commit, .rollback] ++ ev, n + 2, res)
  | some (.stepEndOp, msg) =>
      let (ev, res) := autoFailHandler ao n msg
      (began ++
       [.readPrev d.idnfsexterno d.campo_afetado,
        .updateTarget d.campo_afetado d.valor_esperado d.idnfsexterno,
        .recordDiv (n + 1) n d.idnfsexterno d.tipo "DETECTED" d.confianca,
        .commit,
        .updateDivStatus (n + 1) "AUTO_APPLIED" d.valor_esperado (some usuario),
        .commit, .rollback] ++ ev, n + 2, res)
  | some (.stepCommit, msg) =>
      let (ev, res) := autoFailHandler ao n msg
      (began ++
       [.readPrev d.idnfsexterno d.campo_afetado,
        .updateTarget d.campo_afetado d.valor_esperado d.idnfsexterno,
        .recordDiv (n + 1) n d.idnfsexterno d.tipo "DETECTED" d.confianca,
        .commit,
        .updateDivStatus (n + 1) "AUTO_APPLIED" d.valor_esperado (some usuario),
        .commit,
        .endOp n "SUCCESS" ao.rowsAffected none, .commit] ++ ev, n + 2, res)
  | none =>
      (began ++
       [.readPrev d.idnfsexterno d.campo_afetado,
        .updateTarget d.campo_afetado d.valor_esperado d.idnfsexterno,
        .recordDiv (n + 1) n d.idnfsexterno d.tipo "DETECTED" d.confianca,
        .commit,
        .updateDivStatus (n + 1) "AUTO_APPLIED" d.valor_esperado (some usuario),
        .commit,
        .endOp n "SUCCESS" ao.rowsAffected none, .commit,
        .commit], n + 2, .ok true)

/-- One call to `_registrar_divergencia_pendente` on divergence `d`: opens a
DETECT operation, records the divergence (persisted status DETECTED),
finalizes SUCCESS, and commits.  Any ledger failure propagates to the caller
after the ledger's own rollback. -/
def runPend (po : PendOutcome) (d : Divergencia) (n : Nat) :
    List LedgerEvent × Nat × CallResult :=
  let descricao := "Divergencia detectada: " ++ d.tipo
  let began : List LedgerEvent :=
    [.beginOp n "DETECT" descricao "sistema" "AUTOMATION" none, .commit]
  match po.failAt with
  | some (.stepBegin, msg) => ([.rollback], n, .raised msg)
  | some (.stepRecordDiv, msg) =>
      (began ++ [.rollback], n + 1, .raised msg)
  | some (.stepEndOp, msg) =>
      (began ++
       [.recordDiv (n + 1) n d.idnfsexterno d.tipo "DETECTED" d.confianca,
        .commit, .rollback], n + 2, .raised msg)
  | some (.stepCommit, msg) =>
      (began ++
       [.recordDiv (n + 1) n d.idnfsexterno d.tipo "DETECTED" d.confianca,
        .commit, .endOp n "SUCCESS" 0 none, .commit], n + 2, .raised msg)
  | none =>
      (began ++
       [.recordDiv (n + 1) n d.idnfsexterno d.tipo "DETECTED" d.confianca,
        .commit, .endOp n "SUCCESS" 0 none, .commit, .commit], n + 2, .ok true)

/-- Per-divergence failure oracle for `aplicar_correcoes`, indexed by
position in the input list. -/
structure DivOutcome where
  auto : AutoOutcome := {}
  pend : PendOutcome := {}
deriving DecidableEq, Repr

/-- Which of the three summary counters one divergence lands in. -/
inductive Bucket where
  | auto | pendente | erro
deriving DecidableEq, Repr

/-- One entry of the summary's `detalhes` list. -/
structure Detalhe where
  idnfsexterno : String
  tipo : String
  status : String
  valor_aplicado : Option Valor := none
  motivo : Option String := none
  confianca : Option ℚ := none
deriving DecidableEq, Repr

/-- Auto-apply eligibility test of `aplicar_correcoes`:
`modo == 'auto' and confianca >= limite and tipo in [TRADE_MARKETING_BONUS,
TRADE_MARKETING_TRADE]`. -/
def aplicarAutoCond (modo : String) (limite : ℚ) (d : Divergencia) : Bool :=
  modo == "auto" && decide (limite ≤ d.confianca) &&
    ["TRADE_MARKETING_BONUS", "TRADE_MARKETING_TRADE"].contains d.tipo

/-- Loop body of `aplicar_correcoes` for one divergence: routes to the auto
path or the pending path, converts the outcome into a `detalhes` entry, and
says which counter is incremented.  A raise from either helper is caught
here and counted as an error. -/
def processOne (modo : String) (limite : ℚ) (usuario : String) (o : DivOutcome)
    (d : Divergencia) (n : Nat) : List LedgerEvent × Nat × Detalhe × Bucket :=
  if aplicarAutoCond modo limite d then
    match runAuto o.auto d usuario n with
    | (ev, n2, .ok true) =>
        (ev, n2, { idnfsexterno := d.idnfsexterno, tipo := d.tipo,
                   status := "CORRIGIDO_AUTO",
                   valor_aplicado := d.valor_esperado }, .auto)
    | (ev, n2, .ok false) =>
        (ev, n2, { idnfsexterno := d.idnfsexterno, tipo := d.tipo,
                   status := "ERRO",
                   motivo := some "Falha na aplicacao automatica" }, .erro)
    | (ev, n2, .raised msg) =>
        (ev, n2, { idnfsexterno := d.idnfsexterno, tipo := d.tipo,
                   status := "ERRO", motivo := some msg }, .erro)
  else
    match runPend o.pend d n with
    | (ev, n2, .raised msg) =>
        (ev, n2, { idnfsexterno := d.idnfsexterno, tipo := d.tipo,
                   status := "ERRO", motivo := some msg }, .erro)
    | (ev, n2, _) =>
        (ev, n2, { idnfsexterno := d.idnfsexterno, tipo := d.tipo,
                   status := "PENDENTE_APROVACAO",
                   confianca := some d.confianca }, .pendente)

/-- Summary dictionary returned by `aplicar_correcoes`. -/
structure Resultado where
  total_divergencias : Nat
  corrigidas_automaticamente : Nat
  pendentes_aprovacao : Nat
  erros : Nat
  detalhes : List Detalhe
deriving DecidableEq, Repr

/-- The per-divergence loop of `aplicar_correcoes`: threads the oracle index
and the fresh ledger counter, concatenates events, increments the counter
matching each divergence's bucket, and appends its `detalhes` entry. -/
def aplicarAux (modo : String) (limite : ℚ) (usuario : String)
    (oracle : Nat → DivOutcome) (i n : Nat) :
    List Divergencia → List LedgerEvent × Nat × Resultado
  | [] => ([], n, { total_divergencias := 0, corrigidas_automaticamente := 0,
                    pendentes_aprovacao := 0, erros := 0, detalhes := [] })
  | d :: ds =>
      let (ev, n2, det, b) := processOne modo limite usuario (oracle i) d n
      let (evs, n3, r) := aplicarAux modo limite usuario oracle (i + 1) n2 ds
      (ev ++ evs, n3,
       { total_divergencias := r.total_divergencias + 1,
         corrigidas_automaticamente :=
           (if b = Bucket.auto then 1 else 0) + r.corrigidas_automaticamente,
         pendentes_aprovacao :=
           (if b = Bucket.pendente then 1 else 0) + r.pendentes_aprovacao,
         erros := (if b = Bucket.erro then 1 else 0) + r.erros,
         detalhes := det :: r.detalhes })

/-- `DivergenceProcessor.aplicar_correcoes`: the summary plus the database
event trace, for a given per-divergence failure oracle and initial ledger
counter. -/
def aplicar_correcoes (divergencias : List Divergencia) (modo : String)
    (usuario : String) (limite_auto_aplicacao : ℚ)
    (oracle : Nat → DivOutcome) (n : Nat) : List LedgerEvent × Resultado :=
  let (evs, _, r) :=
    aplicarAux modo limite_auto_aplicacao usuario oracle 0 n divergencias
  (evs, r)

/-! Transactional model of the AuditLogger ledger operations.  Each ledger
call runs its statements on one connection whose uncommitted writes sit in a
pending buffer; `commit` publishes them and `rollback` discards them.  Each
AuditLogger method wraps its statement in try/except: on a database error it
rolls back the connection's transaction and re-raises. -/

/-- Connection state: writes already committed, and writes pending inside the
current transaction. -/
structure DBState where
  committed : List LedgerEvent
  pending : List LedgerEvent
deriving DecidableEq, Repr

/-- Run one statement inside the current transaction. -/
def DBState.exec (s : DBState) (e : LedgerEvent) : DBState :=
  { s with pending := s.pending ++ [e] }

/-- `conn.commit()`: publish the pending writes. -/
def DBState.commitTx (s : DBState) : DBState :=
  { committed := s.committed ++ s.pending, pending := [] }

/-- `conn.rollback()`: discard the pending writes. -/
def DBState.rollbackTx (s : DBState) : DBState :=
  { s with pending := [] }

/-- Effect of one traced event on the shared connection: a commit publishes
the pending statements, a rollback discards them, and every other statement
joins the current transaction. -/
def DBState.applyEvent (s : DBState) : LedgerEvent → DBState
  | .commit => s.commitTx
  | .rollback => s.rollbackTx
  | e => s.exec e

/-- Replay of an event trace on the shared connection, statement by
statement.  DivergenceProcessor and AuditLogger share one psycopg2
connection, so the ledger's own commits also publish any pending
target-table write. -/
def replayEvents (s : DBState) (evs : List LedgerEvent) : DBState :=
  evs.foldl DBState.applyEvent s

/-- Outcome of a ledger call: a value with the new connection state, or a
re-raised error message with the state after the handler's rollback. -/
inductive LedgerResult (α : Type) where
  | ok (s : DBState) (a : α)
  | err (s : DBState) (msg : String)
deriving DecidableEq, Repr

/-- Shared try/except shape of every AuditLogger write method: execute the
statement and commit, or, when the database raises, roll back and re-raise. -/
def ledgerWrite (α : Type) (fails : Option String) (e : LedgerEvent) (a : α)
    (s : DBState) : LedgerResult α :=
  match fails with
  | some msg => .err s.rollbackTx msg
  | none => .ok ((s.exec e).commitTx) a

/-- `AuditLogger.iniciar_operacao`: INSERT a PENDING operation row, commit,
return the generated id; on failure roll back and re-raise. -/
def iniciar_operacao (fails : Option String)
    (tipo_operacao descricao usuario origem : String)
    (tabela_afetada : Option String) (nextId : Nat) (s : DBState) :
    LedgerResult Nat :=
  ledgerWrite Nat fails
    (.beginOp nextId tipo_operacao descricao usuario origem tabela_afetada)
    nextId s

/-- `AuditLogger.finalizar_operacao`: UPDATE the operation row with the final
status, row count and error message, commit; on failure roll back and
re-raise. -/
def finalizar_operacao (fails : Option String) (operacao_id : Nat)
    (status : String) (registros_afetados : Int) (erro_mensagem : Option String)
    (s : DBState) : LedgerResult Unit :=
  ledgerWrite Unit fails
    (.endOp operacao_id status registros_afetados erro_mensagem) () s

/-- `AuditLogger.registrar_divergencia`: INSERT a DETECTED divergence row,
commit, return the generated id; on failure roll back and re-raise. -/
def registrar_divergencia (fails : Option String) (operacao_id : Nat)
    (idnfsexterno tipo_divergencia : String) (confidence_score : ℚ)
    (nextId : Nat) (s : DBState) : LedgerResult Nat :=
  ledgerWrite Nat fails
    (.recordDiv nextId operacao_id idnfsexterno tipo_divergencia "DETECTED"
      confidence_score) nextId s

/-- `AuditLogger.atualizar_status_divergencia` as a ledger write: UPDATE the
divergence row, commit; on failure roll back and re-raise. -/
def atualizar_status_divergencia (fails : Option String) (divergencia_id : Nat)
    (novo_status : String) (valor_aplicado : Option Valor)
    (processado_por : Option String) (s : DBState) : LedgerResult Unit :=
  ledgerWrite Unit fails
    (.updateDivStatus divergencia_id novo_status valor_aplicado processado_por)
    () s

/-- `AuditLogger.iniciar_sessao_processamento`: INSERT a RUNNING session row,
commit, return the generated id; on failure roll back and re-raise. -/
def iniciar_sessao_processamento (fails : Option String) (tipo_sessao : String)
    (nextId : Nat) (s : DBState) : LedgerResult Nat :=
  ledgerWrite Nat fails (.beginSession nextId tipo_sessao) nextId s

/-- `AuditLogger.finalizar_sessao_processamento`: UPDATE the session row with
the final status and metrics, commit; on failure roll back and re-raise. -/
def finalizar_sessao_processamento (fails : Option String) (sessao_id : Nat)
    (status : String) (metricas : Metricas) (s : DBState) : LedgerResult Unit :=
  ledgerWrite Unit fails (.endSession sessao_id status metricas) () s

/-- A persisted row of `audit.divergencias_processadas`, restricted to the
columns touched by `atualizar_status_divergencia`. -/
structure DivRecord where
  id : Nat
  status_processamento : String
  valor_aplicado : Option Valor := none
  processado_por : Option String := none
  motivo_rejeicao : Option String := none
deriving DecidableEq, Repr

/-- Row-level effect of the UPDATE statement issued by
`atualizar_status_divergencia` on the divergences table: the row matching the
id has its status and processing columns overwritten with the given values;
the statement carries no condition on the current status. -/
def atualizar_status_divergencia_rows (store : List DivRecord)
    (divergencia_id : Nat) (novo_status : String) (valor_aplicado : Option Valor)
    (processado_por : Option String) (motivo_rejeicao : Option String) :
    List DivRecord :=
  store.map fun r =>
    if r.id = divergencia_id then
      { r with status_processamento := novo_status,
               valor_aplicado := valor_aplicado,
               processado_por := processado_por,
               motivo_rejeicao := motivo_rejeicao }
    else r

/-! Model of `DailyProcessor.executar`: one detect → apply → report → notify
run.  The report and notify stages are wrapped in their own try/except whose
errors are appended to the result's error list; the terminal status written
into the session row is computed from the apply summary alone. -/

/-- Outcome of `NotificationService.enviar_alerta_divergencias`: message sent,
silently not sent (no SMTP configuration), or an exception raised. -/
inductive NotifyOutcome where
  | sent | notSent
  | raisedMsg (msg : String)
deriving DecidableEq, Repr

/-- The result dictionary returned by `DailyProcessor.executar`. -/
structure ExecResultado where
  status : String
  metricas : Option Metricas
  resultado_correcoes : Option Resultado
  erros : List String
deriving DecidableEq, Repr

/-- `DailyProcessor.executar`.  `fatal` models an exception raised before or
during the detection stage (for example an unreachable database), which the
top-level handler converts into a FAILED result.  Otherwise the run detects
with the default confidence floor 0.8, applies with the default auto
threshold 0.95 as `sistema_automatico`, appends report/notify stage errors to
the error list, and finalizes the session with status COMPLETED when the
apply summary counted zero errors and PARTIAL otherwise. -/
def executar (diasPendente : BonusRow → Int) (rows : List BonusRow)
    (data_inicio data_fim : String) (modo : String)
    (oracle : Nat → DivOutcome) (reportErr : Option String)
    (notifyOutcome : NotifyOutcome) (fatal : Option String) : ExecResultado :=
  match fatal with
  | some msg =>
      { status := "FAILED", metricas := none, resultado_correcoes := none,
        erros := [msg] }
  | none =>
      let divergencias :=
        detectar_divergencias diasPendente rows (some data_inicio)
          (some data_fim) none (8/10)
      let total_divergencias := divergencias.length
      let rc := (aplicar_correcoes divergencias modo "sistema_automatico"
        (95/100) oracle 0).2
      let erros_relatorio : List String :=
        if divergencias.isEmpty then []
        else match reportErr with
          | some m => ["Erro ao gerar relatorio: " ++ m]
          | none => []
      let erros_notificacao : List String :=
        if total_divergencias = 0 then []
        else match notifyOutcome with
          | .raisedMsg m => ["Erro ao enviar notificacao: " ++ m]
          | _ => []
      let metricas : Metricas :=
        { total_registros_analisados := total_divergencias,
          divergencias_detectadas := total_divergencias,
          correcoes_aplicadas := rc.corrigidas_automaticamente,
          correcoes_pendentes := rc.pendentes_aprovacao,
          erros_encontrados := rc.erros }
      let status_final := if rc.erros = 0 then "COMPLETED" else "PARTIAL"
      { status := status_final, metricas := some metricas,
        resultado_correcoes := some rc,
        erros := erros_relatorio ++ erros_notificacao }

/-- Recognizer for UPDATE statements against the target table
`byd.controladoria` (the correction write path). -/
def LedgerEvent.isUpdateTarget : LedgerEvent → Bool
  | .updateTarget _ _ _ => true
  | _ => false

/-! Concrete sample inputs used by witnesses and counterexamples. -/

/-- Constant pending-age column used by sample runs. -/
def dias0 : BonusRow → Int := fun _ => 30

/-- A row flagged for manual review whose department bonus (0) differs from
the source bonus (50) by more than the 0.01 tolerance. -/
def tradeRow : BonusRow :=
  { idnfsexterno := "NF1", apontamento := some "Revisar Divergência!",
    competencia := some "2025-09", valor_bonus := some 50, trade := some 10,
    bonus_dpto := some 0, trade_mkt_dpto := some 10,
    dta_processamento := some "2025-09-15" }

/-- A row carrying the pending-verification sentinel inside the fixed
historical window. -/
def pendRow : BonusRow :=
  { idnfsexterno := "NF2", bonus_utilizado := some "PENDENTE VERIFICACAO",
    competencia := some "2025-09", dta_processamento := some "2025-09-15" }

/-- A row selected by the value-range scan solely because `bonus_dpto` is
negative; its `trade` and `valor_bonus` are in range. -/
def bonusDptoNegRow : BonusRow :=
  { idnfsexterno := "NF3", competencia := some "2025-09",
    valor_bonus := some 80, trade := some 20, bonus_dpto := some (-5),
    dta_processamento := some "2025-09-15" }

/-- A row selected by the value-range scan because `trade` is negative. -/
def tradeNegRow : BonusRow :=
  { idnfsexterno := "NF4", competencia := some "2025-09",
    valor_bonus := some 80, trade := some (-3),
    dta_processamento := some "2025-09-15" }

/-- Failure-free oracle: every ledger and database call succeeds. -/
def okOracle : Nat → DivOutcome := fun _ => {}

/-- Oracle whose first divergence fails its correction at the UPDATE
statement; everything else succeeds. -/
def failFirstUpdateOracle : Nat → DivOutcome := fun i =>
  if i = 0 then
    { auto := { failAt := some (AutoStep.stepUpdate, "update failed") } }
  else {}

/-- Oracle whose every divergence fails its correction at the
atualizar_status_divergencia step, after the divergence record was
committed. -/
def failUpdStatusOracle : Nat → DivOutcome := fun _ =>
  { auto :=
      { failAt := some (AutoStep.stepUpdStatus, "status update failed") } }

/-- The divergence the trade-marketing rule emits for `tradeRow`. -/
def tmDiv : Divergencia :=
  { idnfsexterno := "NF1", tipo := "TRADE_MARKETING_BONUS",
    campo_afetado := "bonus_dpto", valor_atual := some (Valor.num 0),
    valor_esperado := some (Valor.num 50), competencia := some "2025-09",
    confianca := 95/100, regras_violadas := ["BONUS_DPTO_DIVERGENTE"],
    dados_adicionais :=
      [("des_modelo", none), ("bonus_utilizado", none),
       ("dta_processamento", some (Valor.str "2025-09-15"))] }

/-- The divergence the pending-verification rule emits for `pendRow` under
`dias0`. -/
def pendDiv : Divergencia :=
  { idnfsexterno := "NF2", tipo := "PENDENTE_VERIFICACAO",
    campo_afetado := "bonus_utilizado",
    valor_atual := some (Valor.str "PENDENTE VERIFICACAO"),
    valor_esperado := none, competencia := some "2025-09", confianca := 1/2,
    regras_violadas := ["VERIFICACAO_PENDENTE_PROLONGADA"],
    dados_adicionais :=
      [("dias_pendente", some (Valor.num ((30 : Int) : ℚ))),
       ("dta_processamento", some (Valor.str "2025-09-15"))] }

/-! Helper lemmas about the correction loop. -/

theorem aplicarAux_total (modo : String) (limite : ℚ) (usuario : String)
    (oracle : Nat → DivOutcome) :
    ∀ (ds : List Divergencia) (i n : Nat),
      (aplicarAux modo limite usuario oracle i n ds).2.2.total_divergencias
        = ds.length ∧
      (aplicarAux modo limite usuario oracle i n ds).2.2.detalhes.length
        = ds.length := by
  intro ds
  induction ds with
  | nil => intro i n; simp [aplicarAux]
  | cons d ds ih =>
      intro i n
      rcases hp : processOne modo limite usuario (oracle i) d n with ⟨ev, n2, det, b⟩
      have h2 := ih (i + 1) n2
      simp [aplicarAux, hp, h2.1, h2.2]

theorem aplicarAux_sum (modo : String) (limite : ℚ) (usuario : String)
    (oracle : Nat → DivOutcome) :
    ∀ (ds : List Divergencia) (i n : Nat),
      (aplicarAux modo limite usuario oracle i n ds).2.2.corrigidas_automaticamente
        + (aplicarAux modo limite usuario oracle i n ds).2.2.pendentes_aprovacao
        + (aplicarAux modo limite usuario oracle i n ds).2.2.erros
        = ds.length := by
  intro ds
  induction ds with
  | nil => intro i n; simp [aplicarAux]
  | cons d ds ih =>
      intro i n
      rcases hp : processOne modo limite usuario (oracle i) d n with ⟨ev, n2, det, b⟩
      have h2 := ih (i + 1) n2
      rcases hr : aplicarAux modo limite usuario oracle (i + 1) n2 ds
        with ⟨evs, n3, r⟩
      rw [hr] at h2
      simp at h2
      rcases b <;> simp [aplicarAux, hp, hr] <;> omega

theorem aplicarAux_at (modo : String) (limite : ℚ) (usuario : String)
    (oracle : Nat → DivOutcome) :
    ∀ (pre : List Divergencia) (d : Divergencia) (post : List Divergencia)
      (i n : Nat),
      ∃ m,
        ((aplicarAux modo limite usuario oracle i n
            (pre ++ d :: post)).2.2.detalhes)[pre.length]? =
          some (processOne modo limite usuario (oracle (i + pre.length)) d m).2.2.1 ∧
        ∀ e ∈ (processOne modo limite usuario (oracle (i + pre.length)) d m).1,
          e ∈ (aplicarAux modo limite usuario oracle i n (pre ++ d :: post)).1 := by
  intro pre
  induction pre with
  | nil =>
      intro d post i n
      rcases hp : processOne modo limite usuario (oracle i) d n
        with ⟨ev, n2, det, b⟩
      rcases hr : aplicarAux modo limite usuario oracle (i + 1) n2 post
        with ⟨evs, n3, r⟩
      refine ⟨n, ?_, ?_⟩
      · simp [aplicarAux, hp, hr]
      · intro e he
        simp only [List.length_nil, Nat.add_zero, hp] at he
        simp [aplicarAux, hp, hr]
        exact Or.inl he
  | cons p pre ih =>
      intro d post i n
      rcases hp : processOne modo limite usuario (oracle i) p n with ⟨ev, n2, det, b⟩
      obtain ⟨m, hd, he⟩ := ih d post (i + 1) n2
      rcases hr : aplicarAux modo limite usuario oracle (i + 1) n2 (pre ++ d :: post)
        with ⟨evs, n3, r⟩
      rw [hr] at hd he
      have harith : i + 1 + pre.length = i + (pre.length + 1) := by omega
      rw [harith] at hd he
      refine ⟨m, ?_, ?_⟩
      · simp only [List.cons_append, List.length_cons]
        simp [aplicarAux, hp, hr]
        exact hd
      · intro e hme
        simp only [List.length_cons] at hme
        have hmem := he e hme
        simp [aplicarAux, hp, hr]
        exact Or.inr hmem

/-- Claim C5: for every input list of divergences and every mode, the summary
returned by aplicar_correcoes satisfies total == len(divergences) and
auto_applied + pending + errors == total, and each divergence contributes
exactly one detalhes entry. -/
theorem claimC5_summary_counts (divergencias : List Divergencia)
    (modo usuario : String) (limite : ℚ) (oracle : Nat → DivOutcome) (n : Nat) :
    (aplicar_correcoes divergencias modo usuario limite oracle
        n).2.total_divergencias = divergencias.length ∧
    (aplicar_correcoes divergencias modo usuario limite oracle
        n).2.corrigidas_automaticamente
      + (aplicar_correcoes divergencias modo usuario limite oracle
          n).2.pendentes_aprovacao
      + (aplicar_correcoes divergencias modo usuario limite oracle n).2.erros
      = (aplicar_correcoes divergencias modo usuario limite oracle
          n).2.total_divergencias ∧
    (aplicar_correcoes divergencias modo usuario limite oracle
        n).2.detalhes.length = divergencias.length := by
  have ht := aplicarAux_total modo limite usuario oracle divergencias 0 n
  have hs := aplicarAux_sum modo limite usuario oracle divergencias 0 n
  rcases hr : aplicarAux modo limite usuario oracle 0 n divergencias
    with ⟨evs, n3, r⟩
  rw [hr] at ht hs
  simp at ht hs
  simp [aplicar_correcoes, hr, ht.1, ht.2, hs]

/-- Claim C7: every ledger write operation (begin_operation, end_operation,
record_divergence, update_divergence_status, begin_session, end_session),
when its database write fails, rolls back that statement's transaction
(pending writes discarded, committed state untouched) and re-raises the
error to the caller; the failure is never swallowed into an ok result. -/
theorem claimC7_ledger_rollback_reraise (msg : String) (s : DBState)
    (tipo descricao usuario origem novo_status status tipo_sessao : String)
    (tabela : Option String) (opId divId sessaoId nextId : Nat)
    (registros : Int) (erro : Option String) (idnf tipoDiv : String) (conf : ℚ)
    (va : Option Valor) (por : Option String) (metricas : Metricas) :
    iniciar_operacao (some msg) tipo descricao usuario origem tabela nextId s
      = .err { committed := s.committed, pending := [] } msg ∧
    finalizar_operacao (some msg) opId status registros erro s
      = .err { committed := s.committed, pending := [] } msg ∧
    registrar_divergencia (some msg) opId idnf tipoDiv conf nextId s
      = .err { committed := s.committed, pending := [] } msg ∧
    atualizar_status_divergencia (some msg) divId novo_status va por s
      = .err { committed := s.committed, pending := [] } msg ∧
    iniciar_sessao_processamento (some msg) tipo_sessao nextId s
      = .err { committed := s.committed, pending := [] } msg ∧
    finalizar_sessao_processamento (some msg) sessaoId status metricas s
      = .err { committed := s.committed, pending := [] } msg :=
  ⟨rfl, rfl, rfl, rfl, rfl, rfl⟩

/-- Claim C3 counterexample: a persisted divergence record already in the
terminal status AUTO_APPLIED is moved back to DETECTED by a further call to
update_divergence_status — the call is neither a no-op nor an explicit
conflict, so the one-directional transition invariant is not enforced. -/
theorem claimC3_counterexample :
    (atualizar_status_divergencia_rows
        [{ id := 1, status_processamento := "AUTO_APPLIED",
           valor_aplicado := some (Valor.num 5),
           processado_por := some "sistema" }] 1 "DETECTED" none none
        none).map DivRecord.status_processamento = ["DETECTED"] := by
  rfl

/-- Claim C3 (amended): update_divergence_status performs an unconditional
overwrite — the matched record's status and processing columns are set to the
given values regardless of its current status (so a record in a terminal
status can be moved to any other status, including back to DETECTED), and
the update changes no record ids. -/
theorem claimC3_amended (store : List DivRecord) (divergencia_id : Nat)
    (novo_status : String) (valor_aplicado : Option Valor)
    (processado_por : Option String) (motivo_rejeicao : Option String)
    (r0 : DivRecord) (hmem : r0 ∈ store) (hid : r0.id = divergencia_id) :
    { r0 with status_processamento := novo_status,
              valor_aplicado := valor_aplicado,
              processado_por := processado_por,
              motivo_rejeicao := motivo_rejeicao } ∈
      atualizar_status_divergencia_rows store divergencia_id novo_status
        valor_aplicado processado_por motivo_rejeicao ∧
    (atualizar_status_divergencia_rows store divergencia_id novo_status
        valor_aplicado processado_por motivo_rejeicao).map DivRecord.id
      = store.map DivRecord.id := by
  constructor
  · have h := List.mem_map_of_mem
      (f := fun r : DivRecord =>
        if r.id = divergencia_id then
          { r with status_processamento := novo_status,
                   valor_aplicado := valor_aplicado,
                   processado_por := processado_por,
                   motivo_rejeicao := motivo_rejeicao }
        else r) hmem
    simpa [atualizar_status_divergencia_rows, hid] using h
  · simp only [atualizar_status_divergencia_rows, List.map_map]
    apply List.map_congr_left
    intro a _
    by_cases h : a.id = divergencia_id <;> simp [h]

/-- Witness for claim C3's amended theorem at a concrete store: the
AUTO_APPLIED record with id 1 is overwritten to DETECTED. -/
theorem claimC3_witness :
    ({ ({ id := 1, status_processamento := "AUTO_APPLIED",
          valor_aplicado := some (Valor.num 5) } : DivRecord) with
          status_processamento := "DETECTED", valor_aplicado := none,
          processado_por := some "ana", motivo_rejeicao := none } ∈
        atualizar_status_divergencia_rows
          [{ id := 1, status_processamento := "AUTO_APPLIED",
             valor_aplicado := some (Valor.num 5) }] 1 "DETECTED" none
          (some "ana") none) ∧
      (atualizar_status_divergencia_rows
          [{ id := 1, status_processamento := "AUTO_APPLIED",
             valor_aplicado := some (Valor.num 5) }] 1 "DETECTED" none
          (some "ana") none).map DivRecord.id
        = [({ id := 1, status_processamento := "AUTO_APPLIED",
              valor_aplicado := some (Valor.num 5) } : DivRecord)].map
            DivRecord.id :=
  claimC3_amended _ 1 "DETECTED" none (some "ana") none _
    (List.mem_singleton.mpr rfl) rfl

/-- Claim C1 (amended): for every session run that reaches finalization, the
terminal status is COMPLETED iff the apply stage recorded zero correction
errors and PARTIAL iff it recorded at least one; report-generation and
notification errors are appended to the run's error list but do not affect
the terminal status. -/
theorem claimC1_amended (diasPendente : BonusRow → Int) (rows : List BonusRow)
    (data_inicio data_fim modo : String) (oracle : Nat → DivOutcome)
    (reportErr : Option String) (notifyOutcome : NotifyOutcome) :
    ∃ rc : Resultado,
      (executar diasPendente rows data_inicio data_fim modo oracle reportErr
          notifyOutcome none).resultado_correcoes = some rc ∧
      ((executar diasPendente rows data_inicio data_fim modo oracle reportErr
          notifyOutcome none).status = "COMPLETED" ↔ rc.erros = 0) ∧
      ((executar diasPendente rows data_inicio data_fim modo oracle reportErr
          notifyOutcome none).status = "PARTIAL" ↔ rc.erros ≠ 0) ∧
      (executar diasPendente rows data_inicio data_fim modo oracle reportErr
          notifyOutcome none).status =
        (executar diasPendente rows data_inicio data_fim modo oracle none
          NotifyOutcome.sent none).status := by
  refine ⟨(aplicar_correcoes (detectar_divergencias diasPendente rows
      (some data_inicio) (some data_fim) none (8/10)) modo
      "sistema_automatico" (95/100) oracle 0).2, ?_, ?_, ?_, ?_⟩ <;>
    simp only [executar] <;>
    by_cases h : (aplicar_correcoes (detectar_divergencias diasPendente rows
      (some data_inicio) (some data_fim) none (8/10)) modo
      "sistema_automatico" (95/100) oracle 0).2.erros = 0 <;>
    simp [h]

/-! Evaluation lemmas at the concrete sample rows. -/

theorem tradeSelected_tradeRow :
    tradeSelected (some "2025-08-01") (some "2026-05-31") tradeRow = true := rfl

theorem pendenteSelected_tradeRow : pendenteSelected tradeRow = false := rfl

theorem valoresSelected_tradeRow :
    valoresSelected (some "2025-08-01") (some "2026-05-31") tradeRow = false := by
  norm_num [valoresSelected, tradeRow, coalesceQ]

theorem tradeDivsForRow_tradeRow : tradeDivsForRow tradeRow = [tmDiv] := by
  norm_num [tradeDivsForRow, tradeRow, coalesceQ, tmDiv]

theorem detect_tradeRow :
    detectar_divergencias dias0 [tradeRow] (some "2025-08-01")
      (some "2026-05-31") none (8/10) = [tmDiv] := by
  norm_num [detectar_divergencias, detectar_divergencias_trade_marketing,
    detectar_pendentes_verificacao, detectar_divergencias_valores,
    tradeSelected_tradeRow, pendenteSelected_tradeRow,
    valoresSelected_tradeRow, tradeDivsForRow_tradeRow, tmDiv, List.filter]

theorem valoresSelected_pendRow :
    valoresSelected none none pendRow = false := by
  norm_num [valoresSelected, pendRow, coalesceQ]

theorem pendenteDivsForRow_pendRow :
    pendenteDivsForRow dias0 pendRow = [pendDiv] := rfl

theorem detect_pendRow_default :
    detectar_divergencias dias0 [pendRow] none none none (8/10) = [] := by
  norm_num [detectar_divergencias, detectar_divergencias_trade_marketing,
    detectar_pendentes_verificacao, detectar_divergencias_valores,
    valoresSelected_pendRow, pendenteDivsForRow_pendRow, pendDiv,
    tradeSelected, pendenteSelected, pendRow, dtaBetween, List.filter]

/-- Claim C1 counterexample: a run whose apply stage records zero correction
errors but whose report stage raises ends with terminal status COMPLETED even
though a non-fatal stage error occurred and was logged — the claim requires
PARTIAL in that case. -/
theorem claimC1_counterexample :
    (executar dias0 [tradeRow] "2025-08-01" "2026-05-31" "manual" okOracle
        (some "disk full") NotifyOutcome.sent none).status = "COMPLETED" ∧
    (executar dias0 [tradeRow] "2025-08-01" "2026-05-31" "manual" okOracle
        (some "disk full") NotifyOutcome.sent none).erros
      = ["Erro ao gerar relatorio: disk full"] := by
  have hdet := detect_tradeRow
  constructor <;> simp only [executar, hdet] <;> rfl

/-- Claim C8 counterexample: a row carrying the pending-verification sentinel
inside the fixed window produces one rule divergence at confidence 0.5, yet
detect() with its default confidence floor 0.8 returns no divergence for it
at all. -/
theorem claimC8_counterexample :
    pendenteSelected pendRow = true ∧
    detectar_pendentes_verificacao dias0 [pendRow] = [pendDiv] ∧
    pendDiv.confianca = 1/2 ∧
    detectar_divergencias dias0 [pendRow] none none none (8/10) = [] := by
  refine ⟨rfl, rfl, rfl, detect_pendRow_default⟩

theorem detect_pend_pendRow :
    detectar_pendentes_verificacao dias0 [pendRow] = [pendDiv] := rfl

/-- Membership in the trade-marketing rule output fixes the confidence at
0.95 and the kind at one of the two trade-marketing kinds. -/
theorem mem_trade_rule {data_inicio data_fim : Option String}
    {rows : List BonusRow} {d : Divergencia}
    (h : d ∈ detectar_divergencias_trade_marketing data_inicio data_fim rows) :
    d.confianca = 95/100 ∧
    (d.tipo = "TRADE_MARKETING_BONUS" ∨ d.tipo = "TRADE_MARKETING_TRADE") := by
  simp only [detectar_divergencias_trade_marketing, List.mem_flatMap] at h
  obtain ⟨r, _, hd⟩ := h
  simp only [tradeDivsForRow, List.mem_append] at hd
  rcases hd with hd | hd <;> split at hd <;> simp_all

/-- Membership in the pending-verification rule output fixes the confidence
at 0.5 and the kind at PENDENTE_VERIFICACAO. -/
theorem mem_pend_rule {diasPendente : BonusRow → Int} {rows : List BonusRow}
    {d : Divergencia}
    (h : d ∈ detectar_pendentes_verificacao diasPendente rows) :
    d.confianca = 1/2 ∧ d.tipo = "PENDENTE_VERIFICACAO" := by
  simp only [detectar_pendentes_verificacao, List.mem_flatMap] at h
  obtain ⟨r, _, hd⟩ := h
  simp only [pendenteDivsForRow, List.mem_singleton] at hd
  subst hd
  simp

/-- Membership in the value-range rule output fixes the confidence at 0.7 and
the kind at VALIDACAO_VALOR, with a non-empty rule list. -/
theorem mem_valores_rule {data_inicio data_fim : Option String}
    {rows : List BonusRow} {d : Divergencia}
    (h : d ∈ detectar_divergencias_valores data_inicio data_fim rows) :
    d.confianca = 7/10 ∧ d.tipo = "VALIDACAO_VALOR" ∧
      d.regras_violadas ≠ [] := by
  simp only [detectar_divergencias_valores, List.mem_flatMap] at h
  obtain ⟨r, hr, hd⟩ := h
  simp only [valoresDivsForRow] at hd
  split at hd <;> simp_all

/-- When a divergence is not eligible for auto-apply, its summary entry's
status is ERRO or PENDENTE_APROVACAO, never CORRIGIDO_AUTO. -/
theorem processOne_status_not_auto {modo : String} {limite : ℚ}
    {usuario : String} {o : DivOutcome} {d : Divergencia} {n : Nat}
    (hc : aplicarAutoCond modo limite d = false) :
    (processOne modo limite usuario o d n).2.2.1.status = "ERRO" ∨
    (processOne modo limite usuario o d n).2.2.1.status
      = "PENDENTE_APROVACAO" := by
  rcases hq : runPend o.pend d n with ⟨ev, n2, res⟩
  rcases res with s | msg
  · right; simp [processOne, hc, hq]
  · left; simp [processOne, hc, hq]

/-- A divergence produced by one of the three rule scans is in detect()'s
result exactly when the caller's minimum-confidence threshold is at most its
confidence. -/
theorem detect_mem_iff (diasPendente : BonusRow → Int) (rows : List BonusRow)
    (data_inicio data_fim tipo_divergencia : Option String) (d : Divergencia)
    (hmem : d ∈ detectar_divergencias_trade_marketing data_inicio data_fim rows ∨
            d ∈ detectar_pendentes_verificacao diasPendente rows ∨
            d ∈ detectar_divergencias_valores data_inicio data_fim rows)
    (limite : ℚ) :
    d ∈ detectar_divergencias diasPendente rows data_inicio data_fim
        tipo_divergencia limite ↔ limite ≤ d.confianca := by
  simp only [detectar_divergencias, List.mem_filter, List.mem_append,
    decide_eq_true_eq]
  constructor
  · exact fun h => h.2
  · intro hle
    refine ⟨?_, hle⟩
    rcases hmem with h | h | h
    · exact Or.inl (Or.inl h)
    · exact Or.inl (Or.inr h)
    · exact Or.inr h

/-- Claim C10: with the default minimum-confidence threshold 0.8, detect()
returns only trade-marketing divergences (confidence 0.95); every
pending-verification divergence (confidence 0.5) and every value-range
divergence (confidence 0.7) is filtered out of the returned list, and each
appears in detect()'s result exactly when the caller's threshold is at most
its confidence. -/
theorem claimC10_default_threshold_filter (diasPendente : BonusRow → Int)
    (rows : List BonusRow)
    (data_inicio data_fim tipo_divergencia : Option String) :
    (∀ d ∈ detectar_divergencias diasPendente rows data_inicio data_fim
        tipo_divergencia (8/10),
      d.confianca = 95/100 ∧
      (d.tipo = "TRADE_MARKETING_BONUS" ∨ d.tipo = "TRADE_MARKETING_TRADE")) ∧
    (∀ d, (d ∈ detectar_pendentes_verificacao diasPendente rows ∨
           d ∈ detectar_divergencias_valores data_inicio data_fim rows) →
      ∀ limite : ℚ,
        (d ∈ detectar_divergencias diasPendente rows data_inicio data_fim
            tipo_divergencia limite ↔ limite ≤ d.confianca)) ∧
    (∀ d ∈ detectar_pendentes_verificacao diasPendente rows,
        d.confianca = 1/2) ∧
    (∀ d ∈ detectar_divergencias_valores data_inicio data_fim rows,
        d.confianca = 7/10) := by
  refine ⟨?_, ?_, fun d hd => (mem_pend_rule hd).1,
    fun d hd => (mem_valores_rule hd).1⟩
  · intro d hd
    simp only [detectar_divergencias, List.mem_filter, List.mem_append,
      decide_eq_true_eq] at hd
    obtain ⟨hmem, hconf⟩ := hd
    rcases hmem with (h | h) | h
    · exact mem_trade_rule h
    · exact absurd hconf (by rw [(mem_pend_rule h).1]; norm_num)
    · exact absurd hconf (by rw [(mem_valores_rule h).1]; norm_num)
  · intro d hmem limite
    refine detect_mem_iff diasPendente rows data_inicio data_fim
      tipo_divergencia d ?_ limite
    rcases hmem with h | h
    · exact Or.inr (Or.inl h)
    · exact Or.inr (Or.inr h)

/-- Witness for claim C10 at a concrete warehouse: the pending-verification
divergence of `pendRow` is in detect()'s result at threshold 1/2 iff 1/2 is
at most its confidence. -/
theorem claimC10_witness :
    pendDiv ∈ detectar_divergencias dias0 [pendRow] none none none (1/2) ↔
      (1/2 : ℚ) ≤ pendDiv.confianca :=
  (claimC10_default_threshold_filter dias0 [pendRow] none none none).2.1
    pendDiv (Or.inl (by rw [detect_pend_pendRow]; exact List.mem_singleton.mpr rfl))
    (1/2)

/-- Claim C8 (amended): every warehouse row matching the pending-verification
sentinel inside the fixed window yields exactly one rule divergence, with
confidence 0.5; that divergence is in detect()'s result iff the caller's
minimum-confidence threshold is at most 0.5 (so never with the default 0.8);
and it is never eligible for auto-apply under any mode and threshold — in any
apply batch its summary entry is never CORRIGIDO_AUTO. -/
theorem claimC8_amended (diasPendente : BonusRow → Int) (rows : List BonusRow)
    (data_inicio data_fim tipo_divergencia : Option String) (r : BonusRow)
    (hr : r ∈ rows) (hsel : pendenteSelected r = true) :
    (pendenteDivsForRow diasPendente r).length = 1 ∧
    ∀ d ∈ pendenteDivsForRow diasPendente r,
      d.confianca = 1/2 ∧
      (∀ limite : ℚ,
        (d ∈ detectar_divergencias diasPendente rows data_inicio data_fim
            tipo_divergencia limite ↔ limite ≤ 1/2)) ∧
      (∀ modo limite, aplicarAutoCond modo limite d = false) ∧
      (∀ (pre post : List Divergencia) (modo usuario : String) (limite : ℚ)
          (oracle : Nat → DivOutcome) (n : Nat),
        ((aplicar_correcoes (pre ++ d :: post) modo usuario limite oracle
            n).2.detalhes.map Detalhe.status)[pre.length]?
          ≠ some "CORRIGIDO_AUTO") := by
  have hpmem : ∀ d ∈ pendenteDivsForRow diasPendente r,
      d ∈ detectar_pendentes_verificacao diasPendente rows := by
    intro d hd
    simp only [detectar_pendentes_verificacao, List.mem_flatMap]
    exact ⟨r, List.mem_filter.mpr ⟨hr, hsel⟩, hd⟩
  refine ⟨rfl, ?_⟩
  intro d hd
  have hconf := (mem_pend_rule (hpmem d hd)).1
  have htipo := (mem_pend_rule (hpmem d hd)).2
  have hcond : ∀ modo limite, aplicarAutoCond modo limite d = false := by
    intro modo limite
    simp [aplicarAutoCond, htipo]
  refine ⟨hconf, ?_, hcond, ?_⟩
  · intro limite
    have h := detect_mem_iff diasPendente rows data_inicio data_fim
      tipo_divergencia d (Or.inr (Or.inl (hpmem d hd))) limite
    rw [hconf] at h
    exact h
  · intro pre post modo usuario limite oracle n
    obtain ⟨m, hdet, _⟩ :=
      aplicarAux_at modo limite usuario oracle pre d post 0 n
    simp only [Nat.zero_add] at hdet
    have hst : (processOne modo limite usuario (oracle pre.length) d
        m).2.2.1.status ≠ "CORRIGIDO_AUTO" := by
      rcases @processOne_status_not_auto modo limite usuario
        (oracle pre.length) d m (hcond modo limite) with h | h <;>
        rw [h] <;> decide
    show ((aplicarAux modo limite usuario oracle 0 n
        (pre ++ d :: post)).2.2.detalhes.map Detalhe.status)[pre.length]?
      ≠ some "CORRIGIDO_AUTO"
    rw [List.getElem?_map, hdet]
    simpa using hst

/-- Witness for claim C8's amended theorem at the concrete pending row: its
divergence has confidence 0.5, is in detect()'s result at the default
threshold 0.8 iff 0.8 is at most 0.5, and is not auto-apply eligible. -/
theorem claimC8_witness :
    pendDiv.confianca = 1/2 ∧
    (pendDiv ∈ detectar_divergencias dias0 [pendRow] none none none (8/10) ↔
      (8/10 : ℚ) ≤ 1/2) ∧
    aplicarAutoCond "auto" (95/100) pendDiv = false := by
  have hmem : pendDiv ∈ pendenteDivsForRow dias0 pendRow := by
    rw [pendenteDivsForRow_pendRow]
    exact List.mem_singleton.mpr rfl
  obtain ⟨-, h⟩ := claimC8_amended dias0 [pendRow] none none none pendRow
    (List.mem_singleton.mpr rfl) rfl
  obtain ⟨h1, h2, h3, -⟩ := h pendDiv hmem
  exact ⟨h1, h2 (8/10), h3 "auto" (95/100)⟩

/-- Per-row bound bookkeeping of the value-range rule: each rule name appears
in the per-row list exactly when its bound fails, and the list is empty
exactly when the row's trade and valor_bonus are both inside all bounds. -/
theorem valoresRegras_spec (r : BonusRow) :
    (("TRADE_VALOR_NEGATIVO" ∈ valoresRegrasVioladas r) ↔
      coalesceQ r.trade < 0) ∧
    (("BONUS_VALOR_NEGATIVO" ∈ valoresRegrasVioladas r) ↔
      coalesceQ r.valor_bonus < 0) ∧
    (("TRADE_VALOR_OUTLIER" ∈ valoresRegrasVioladas r) ↔
      100000 < coalesceQ r.trade) ∧
    (("BONUS_VALOR_OUTLIER" ∈ valoresRegrasVioladas r) ↔
      100000 < coalesceQ r.valor_bonus) ∧
    (valoresRegrasVioladas r = [] ↔
      ¬(coalesceQ r.trade < 0 ∨ coalesceQ r.valor_bonus < 0 ∨
        100000 < coalesceQ r.trade ∨ 100000 < coalesceQ r.valor_bonus)) := by
  by_cases h1 : coalesceQ r.trade < 0 <;>
    by_cases h2 : coalesceQ r.valor_bonus < 0 <;>
    by_cases h3 : (100000 : ℚ) < coalesceQ r.trade <;>
    by_cases h4 : (100000 : ℚ) < coalesceQ r.valor_bonus <;>
    simp [valoresRegrasVioladas, h1, h2, h3, h4]

/-- Claim C2 counterexample: `bonusDptoNegRow` is selected by the value-range
scan (its bonus_dpto is negative), yet the rule emits no Divergence at all
for it, because the per-row re-check only inspects trade and valor_bonus. -/
theorem claimC2_counterexample :
    valoresSelected none none bonusDptoNegRow = true ∧
    detectar_divergencias_valores none none [bonusDptoNegRow] = [] := by
  constructor
  · norm_num [valoresSelected, bonusDptoNegRow, coalesceQ]
  · norm_num [detectar_divergencias_valores, valoresSelected,
      bonusDptoNegRow, coalesceQ, valoresDivsForRow, valoresRegrasVioladas,
      List.filter]

/-- Claim C2 (amended): for every row selected by the value-range scan whose
coalesced trade or valor_bonus is negative or exceeds 100000, the rule emits
exactly one Divergence with confidence 0.7 whose violated_rules enumerate
exactly the failed bounds (hence non-empty); a row selected solely because
its bonus_dpto is negative emits no Divergence. -/
theorem claimC2_amended (data_inicio data_fim : Option String) (r : BonusRow)
    (hsel : valoresSelected data_inicio data_fim r = true) :
    ((coalesceQ r.trade < 0 ∨ coalesceQ r.valor_bonus < 0 ∨
      100000 < coalesceQ r.trade ∨ 100000 < coalesceQ r.valor_bonus) →
      (valoresDivsForRow r).length = 1 ∧
      ∀ d ∈ valoresDivsForRow r,
        d.confianca = 7/10 ∧ d.regras_violadas ≠ [] ∧
        (("TRADE_VALOR_NEGATIVO" ∈ d.regras_violadas) ↔
          coalesceQ r.trade < 0) ∧
        (("BONUS_VALOR_NEGATIVO" ∈ d.regras_violadas) ↔
          coalesceQ r.valor_bonus < 0) ∧
        (("TRADE_VALOR_OUTLIER" ∈ d.regras_violadas) ↔
          100000 < coalesceQ r.trade) ∧
        (("BONUS_VALOR_OUTLIER" ∈ d.regras_violadas) ↔
          100000 < coalesceQ r.valor_bonus)) ∧
    (¬(coalesceQ r.trade < 0 ∨ coalesceQ r.valor_bonus < 0 ∨
       100000 < coalesceQ r.trade ∨ 100000 < coalesceQ r.valor_bonus) →
      valoresDivsForRow r = []) := by
  have hs := valoresRegras_spec r
  constructor
  · intro hcond
    have hne : valoresRegrasVioladas r ≠ [] :=
      fun h => (hs.2.2.2.2.mp h) hcond
    constructor
    · simp [valoresDivsForRow, hne]
    · intro d hd
      simp only [valoresDivsForRow] at hd
      rw [if_neg hne] at hd
      simp only [List.mem_singleton] at hd
      subst hd
      exact ⟨rfl, hne, hs.1, hs.2.1, hs.2.2.1, hs.2.2.2.1⟩
  · intro hcond
    have he : valoresRegrasVioladas r = [] := hs.2.2.2.2.mpr hcond
    simp [valoresDivsForRow, he]

/-- Witness for claim C2's amended theorem at a concrete row with a negative
trade value: exactly one divergence, confidence 0.7, non-empty rules. -/
theorem claimC2_witness :
    (valoresDivsForRow tradeNegRow).length = 1 ∧
    ∀ d ∈ valoresDivsForRow tradeNegRow,
      d.confianca = 7/10 ∧ d.regras_violadas ≠ [] := by
  have h := (claimC2_amended none none tradeNegRow
      (by norm_num [valoresSelected, tradeNegRow, coalesceQ])).1
    (Or.inl (by norm_num [tradeNegRow, coalesceQ]))
  exact ⟨h.1, fun d hd => ⟨(h.2 d hd).1, (h.2 d hd).2.1⟩⟩

/-- The auto-apply eligibility test of the code, in propositional form. -/
theorem aplicarAutoCond_iff (modo : String) (limite : ℚ) (d : Divergencia) :
    aplicarAutoCond modo limite d = true ↔
      (modo = "auto" ∧ limite ≤ d.confianca ∧
       (d.tipo = "TRADE_MARKETING_BONUS" ∨
        d.tipo = "TRADE_MARKETING_TRADE")) := by
  simp [aplicarAutoCond, and_assoc]

/-- Claim C4: a divergence passed to apply is auto-applied iff mode == 'auto'
and its confidence reaches the auto threshold and its kind is
TRADE_MARKETING_BONUS or TRADE_MARKETING_TRADE; every ineligible divergence
is, when the ledger is available, registered as pending with a DETECTED
ledger record; and every divergence contributes exactly one summary entry —
none is silently dropped. -/
theorem claimC4_eligibility (modo usuario : String) (limite : ℚ)
    (oracle : Nat → DivOutcome) (n : Nat) (pre post : List Divergencia)
    (d : Divergencia) :
    ((aplicar_correcoes (pre ++ d :: post) modo usuario limite oracle
        n).2.detalhes.length = (pre ++ d :: post).length) ∧
    ((modo = "auto" ∧ limite ≤ d.confianca ∧
      (d.tipo = "TRADE_MARKETING_BONUS" ∨ d.tipo = "TRADE_MARKETING_TRADE")) →
      (oracle pre.length).auto.failAt = none →
      ((aplicar_correcoes (pre ++ d :: post) modo usuario limite oracle
          n).2.detalhes.map Detalhe.status)[pre.length]? =
        some "CORRIGIDO_AUTO") ∧
    (¬(modo = "auto" ∧ limite ≤ d.confianca ∧
       (d.tipo = "TRADE_MARKETING_BONUS" ∨ d.tipo = "TRADE_MARKETING_TRADE")) →
      (oracle pre.length).pend.failAt = none →
      ((aplicar_correcoes (pre ++ d :: post) modo usuario limite oracle
          n).2.detalhes.map Detalhe.status)[pre.length]? =
        some "PENDENTE_APROVACAO" ∧
      ∃ opId divId,
        LedgerEvent.recordDiv divId opId d.idnfsexterno d.tipo "DETECTED"
            d.confianca ∈
          (aplicar_correcoes (pre ++ d :: post) modo usuario limite oracle
            n).1) := by
  obtain ⟨m, hdet, hev⟩ :=
    aplicarAux_at modo limite usuario oracle pre d post 0 n
  simp only [Nat.zero_add] at hdet hev
  refine ⟨(aplicarAux_total modo limite usuario oracle (pre ++ d :: post)
    0 n).2, ?_, ?_⟩
  · intro hcond hfail
    have hb : aplicarAutoCond modo limite d = true :=
      (aplicarAutoCond_iff _ _ _).mpr hcond
    have hstat : (processOne modo limite usuario (oracle pre.length) d
        m).2.2.1.status = "CORRIGIDO_AUTO" := by
      simp [processOne, hb, runAuto, hfail]
    show ((aplicarAux modo limite usuario oracle 0 n
        (pre ++ d :: post)).2.2.detalhes.map Detalhe.status)[pre.length]? =
      some "CORRIGIDO_AUTO"
    rw [List.getElem?_map, hdet]
    simp [hstat]
  · intro hcond hpend
    have hb : aplicarAutoCond modo limite d = false := by
      rcases hbb : aplicarAutoCond modo limite d
      · rfl
      · exact absurd ((aplicarAutoCond_iff _ _ _).mp hbb) hcond
    have hstat : (processOne modo limite usuario (oracle pre.length) d
        m).2.2.1.status = "PENDENTE_APROVACAO" := by
      simp [processOne, hb, runPend, hpend]
    have hmem : LedgerEvent.recordDiv (m + 1) m d.idnfsexterno d.tipo
        "DETECTED" d.confianca ∈
        (processOne modo limite usuario (oracle pre.length) d m).1 := by
      simp [processOne, hb, runPend, hpend]
    constructor
    · show ((aplicarAux modo limite usuario oracle 0 n
          (pre ++ d :: post)).2.2.detalhes.map Detalhe.status)[pre.length]? =
        some "PENDENTE_APROVACAO"
      rw [List.getElem?_map, hdet]
      simp [hstat]
    · exact ⟨m, m + 1, hev _ hmem⟩

/-- Witness for claim C4 on a one-element eligible batch: the trade-marketing
divergence at confidence 0.95 is auto-applied in mode auto at threshold
0.95. -/
theorem claimC4_witness :
    ((aplicar_correcoes [tmDiv] "auto" "sistema" (95/100) okOracle
        0).2.detalhes.map Detalhe.status)[0]? = some "CORRIGIDO_AUTO" :=
  (claimC4_eligibility "auto" "sistema" (95/100) okOracle 0 [] [] tmDiv).2.1
    ⟨rfl, by norm_num [tmDiv], Or.inl rfl⟩ rfl

/-- Claim C6 counterexample: a correction that fails at the
atualizar_status_divergencia step returns failure, yet replaying its
connection events shows the target-table UPDATE already committed — it was
published by registrar_divergencia's commit on the shared connection, so the
handler's rollback cannot undo it.  The claim's "the correction write is
rolled back" is false at this input. -/
theorem claimC6_counterexample :
    (runAuto
        { failAt := some (AutoStep.stepUpdStatus, "status update failed") }
        tmDiv "sistema" 0).2.2 = CallResult.ok false ∧
    LedgerEvent.updateTarget "bonus_dpto" (some (Valor.num 50)) "NF1" ∈
      (replayEvents ⟨[], []⟩
        (runAuto
          { failAt := some (AutoStep.stepUpdStatus, "status update failed") }
          tmDiv "sistema" 0).1).committed := by
  constructor
  · rfl
  · simp [runAuto, autoFailHandler, replayEvents, DBState.applyEvent,
      DBState.exec, DBState.commitTx, DBState.rollbackTx, tmDiv]

/-- Claim C6 (amended): in an auto-apply batch, when a divergence's
correction fails at any step after the audited operation opened (and the
ledger can still write the failure), the operation is finalized FAILED with
the error message, a connection rollback is issued, the divergence is
counted as an error in the summary, and the rest of the batch is still
processed — every input divergence keeps its summary entry.  The correction
write, however, is only effectively undone when the failure occurs before
registrar_divergencia's commit (at the previous-value read, the UPDATE
itself, or the divergence insert); a failure at the status update, the
SUCCESS finalization, or the final commit leaves the target-table write
already committed on the shared connection. -/
theorem claimC6_amended (modo usuario : String) (limite : ℚ)
    (oracle : Nat → DivOutcome) (n : Nat) (pre post : List Divergencia)
    (d : Divergencia) (step : AutoStep) (msg : String)
    (hcond : modo = "auto" ∧ limite ≤ d.confianca ∧
      (d.tipo = "TRADE_MARKETING_BONUS" ∨ d.tipo = "TRADE_MARKETING_TRADE"))
    (hfail : (oracle pre.length).auto.failAt = some (step, msg))
    (hsb : step ≠ AutoStep.stepBegin)
    (hfin : (oracle pre.length).auto.finalizeFailMsg = none) :
    (∃ opId, LedgerEvent.endOp opId "FAILED" 0 (some msg) ∈
      (aplicar_correcoes (pre ++ d :: post) modo usuario limite oracle n).1) ∧
    LedgerEvent.rollback ∈
      (aplicar_correcoes (pre ++ d :: post) modo usuario limite oracle n).1 ∧
    ((aplicar_correcoes (pre ++ d :: post) modo usuario limite oracle
        n).2.detalhes.map Detalhe.status)[pre.length]? = some "ERRO" ∧
    (aplicar_correcoes (pre ++ d :: post) modo usuario limite oracle
        n).2.detalhes.length = (pre ++ d :: post).length ∧
    (∀ m : Nat,
      ((step = AutoStep.stepReadPrev ∨ step = AutoStep.stepUpdate ∨
        step = AutoStep.stepRecordDiv) →
        ∀ v, LedgerEvent.updateTarget d.campo_afetado v d.idnfsexterno ∉
          (replayEvents ⟨[], []⟩
            (runAuto (oracle pre.length).auto d usuario m).1).committed) ∧
      ((step = AutoStep.stepUpdStatus ∨ step = AutoStep.stepEndOp ∨
        step = AutoStep.stepCommit) →
        LedgerEvent.updateTarget d.campo_afetado d.valor_esperado
            d.idnfsexterno ∈
          (replayEvents ⟨[], []⟩
            (runAuto (oracle pre.length).auto d usuario m).1).committed)) := by
  obtain ⟨m, hdet, hev⟩ :=
    aplicarAux_at modo limite usuario oracle pre d post 0 n
  simp only [Nat.zero_add] at hdet hev
  have hb : aplicarAutoCond modo limite d = true :=
    (aplicarAutoCond_iff _ _ _).mpr hcond
  have hkey :
      LedgerEvent.endOp m "FAILED" 0 (some msg) ∈
        (processOne modo limite usuario (oracle pre.length) d m).1 ∧
      LedgerEvent.rollback ∈
        (processOne modo limite usuario (oracle pre.length) d m).1 ∧
      (processOne modo limite usuario (oracle pre.length) d m).2.2.1.status
        = "ERRO" := by
    rcases step with _ | _ | _ | _ | _ | _ | _
    · exact absurd rfl hsb
    all_goals
      refine ⟨?_, ?_, ?_⟩ <;>
        simp [processOne, hb, runAuto, hfail, autoFailHandler, hfin]
  have hreplay : ∀ m2 : Nat,
      ((step = AutoStep.stepReadPrev ∨ step = AutoStep.stepUpdate ∨
        step = AutoStep.stepRecordDiv) →
        ∀ v, LedgerEvent.updateTarget d.campo_afetado v d.idnfsexterno ∉
          (replayEvents ⟨[], []⟩
            (runAuto (oracle pre.length).auto d usuario m2).1).committed) ∧
      ((step = AutoStep.stepUpdStatus ∨ step = AutoStep.stepEndOp ∨
        step = AutoStep.stepCommit) →
        LedgerEvent.updateTarget d.campo_afetado d.valor_esperado
            d.idnfsexterno ∈
          (replayEvents ⟨[], []⟩
            (runAuto (oracle pre.length).auto d usuario m2).1).committed) := by
    intro m2
    rcases step with _ | _ | _ | _ | _ | _ | _
    · exact absurd rfl hsb
    · refine ⟨fun _ v => ?_,
        fun hs => by rcases hs with hs | hs | hs <;> cases hs⟩
      simp [runAuto, hfail, hfin, autoFailHandler, replayEvents,
        DBState.applyEvent, DBState.exec, DBState.commitTx,
        DBState.rollbackTx]
    · refine ⟨fun _ v => ?_,
        fun hs => by rcases hs with hs | hs | hs <;> cases hs⟩
      simp [runAuto, hfail, hfin, autoFailHandler, replayEvents,
        DBState.applyEvent, DBState.exec, DBState.commitTx,
        DBState.rollbackTx]
    · refine ⟨fun _ v => ?_,
        fun hs => by rcases hs with hs | hs | hs <;> cases hs⟩
      simp [runAuto, hfail, hfin, autoFailHandler, replayEvents,
        DBState.applyEvent, DBState.exec, DBState.commitTx,
        DBState.rollbackTx]
    · refine ⟨fun hs => (by rcases hs with hs | hs | hs <;> cases hs),
        fun _ => ?_⟩
      simp [runAuto, hfail, hfin, autoFailHandler, replayEvents,
        DBState.applyEvent, DBState.exec, DBState.commitTx,
        DBState.rollbackTx]
    · refine ⟨fun hs => (by rcases hs with hs | hs | hs <;> cases hs),
        fun _ => ?_⟩
      simp [runAuto, hfail, hfin, autoFailHandler, replayEvents,
        DBState.applyEvent, DBState.exec, DBState.commitTx,
        DBState.rollbackTx]
    · refine ⟨fun hs => (by rcases hs with hs | hs | hs <;> cases hs),
        fun _ => ?_⟩
      simp [runAuto, hfail, hfin, autoFailHandler, replayEvents,
        DBState.applyEvent, DBState.exec, DBState.commitTx,
        DBState.rollbackTx]
  refine ⟨⟨m, hev _ hkey.1⟩, hev _ hkey.2.1, ?_,
    (aplicarAux_total modo limite usuario oracle (pre ++ d :: post) 0 n).2,
    hreplay⟩
  show ((aplicarAux modo limite usuario oracle 0 n
      (pre ++ d :: post)).2.2.detalhes.map Detalhe.status)[pre.length]? =
    some "ERRO"
  rw [List.getElem?_map, hdet]
  simp [hkey.2.2]

/-- Witness for claim C6's amended theorem: a one-element auto batch failing
at the status-update step gets a FAILED finalization, an ERRO entry, a
full-length detail list, and a target write that remains committed; the same
batch failing at the UPDATE statement itself leaves no committed target
write. -/
theorem claimC6_witness :
    (∃ opId, LedgerEvent.endOp opId "FAILED" 0 (some "status update failed") ∈
      (aplicar_correcoes [tmDiv] "auto" "sistema" (95/100)
        failUpdStatusOracle 0).1) ∧
    ((aplicar_correcoes [tmDiv] "auto" "sistema" (95/100) failUpdStatusOracle
        0).2.detalhes.map Detalhe.status)[0]? = some "ERRO" ∧
    (aplicar_correcoes [tmDiv] "auto" "sistema" (95/100) failUpdStatusOracle
        0).2.detalhes.length = [tmDiv].length ∧
    LedgerEvent.updateTarget tmDiv.campo_afetado tmDiv.valor_esperado
        tmDiv.idnfsexterno ∈
      (replayEvents ⟨[], []⟩
        (runAuto (failUpdStatusOracle 0).auto tmDiv "sistema" 0).1).committed ∧
    (∀ v, LedgerEvent.updateTarget tmDiv.campo_afetado v tmDiv.idnfsexterno ∉
      (replayEvents ⟨[], []⟩
        (runAuto (failFirstUpdateOracle 0).auto tmDiv "sistema"
          0).1).committed) := by
  have h1 := claimC6_amended "auto" "sistema" (95/100) failUpdStatusOracle 0
    [] [] tmDiv AutoStep.stepUpdStatus "status update failed"
    ⟨rfl, by norm_num [tmDiv], Or.inl rfl⟩ rfl (by decide) rfl
  have h2 := claimC6_amended "auto" "sistema" (95/100) failFirstUpdateOracle 0
    [] [] tmDiv AutoStep.stepUpdate "update failed"
    ⟨rfl, by norm_num [tmDiv], Or.inl rfl⟩ rfl (by decide) rfl
  exact ⟨h1.1, h1.2.2.1, h1.2.2.2.1, (h1.2.2.2.2 0).2 (Or.inl rfl),
    fun v => (h2.2.2.2.2 0).1 (Or.inr (Or.inl rfl)) v⟩

/-- In mode manual the auto-apply eligibility test is always false. -/
theorem aplicarAutoCond_manual (limite : ℚ) (d : Divergencia) :
    aplicarAutoCond "manual" limite d = false := rfl

/-- The pending-registration path never issues an UPDATE against the target
table. -/
theorem runPend_no_update (po : PendOutcome) (d : Divergencia) (n : Nat) :
    ∀ e ∈ (runPend po d n).1, e.isUpdateTarget = false := by
  rcases hf : po.failAt with _ | ⟨step, msg⟩
  · simp [runPend, hf, LedgerEvent.isUpdateTarget]
  · rcases step <;> simp [runPend, hf, LedgerEvent.isUpdateTarget]

/-- In mode manual, a divergence's events are exactly those of its
pending-registration call. -/
theorem processOne_manual_events (limite : ℚ) (usuario : String)
    (o : DivOutcome) (d : Divergencia) (n : Nat) :
    (processOne "manual" limite usuario o d n).1 = (runPend o.pend d n).1 := by
  rcases hq : runPend o.pend d n with ⟨ev, n2, res⟩
  rcases res with s | msg <;>
    simp [processOne, aplicarAutoCond_manual, hq]

/-- In mode manual with a willing ledger, every divergence lands in the
pending bucket. -/
theorem processOne_manual_ok (limite : ℚ) (usuario : String) (o : DivOutcome)
    (d : Divergencia) (n : Nat) (hf : o.pend.failAt = none) :
    (processOne "manual" limite usuario o d n).2.2.2 = Bucket.pendente := by
  simp [processOne, aplicarAutoCond_manual, runPend, hf]

theorem aplicarAux_manual_no_update (usuario : String) (limite : ℚ)
    (oracle : Nat → DivOutcome) :
    ∀ (ds : List Divergencia) (i n : Nat),
      ∀ e ∈ (aplicarAux "manual" limite usuario oracle i n ds).1,
        e.isUpdateTarget = false := by
  intro ds
  induction ds with
  | nil => intro i n e he; simp [aplicarAux] at he
  | cons d ds ih =>
      intro i n e he
      rcases hp : processOne "manual" limite usuario (oracle i) d n
        with ⟨ev, n2, det, b⟩
      rcases hr : aplicarAux "manual" limite usuario oracle (i + 1) n2 ds
        with ⟨evs, n3, r⟩
      simp only [aplicarAux, hp, hr, List.mem_append] at he
      rcases he with he | he
      · have h1 : (runPend (oracle i).pend d n).1 = ev := by
          rw [← processOne_manual_events limite usuario (oracle i) d n, hp]
        refine runPend_no_update (oracle i).pend d n e ?_
        rw [h1]
        exact he
      · have h2 := ih (i + 1) n2
        rw [hr] at h2
        exact h2 e he

theorem aplicarAux_manual_counts (usuario : String) (limite : ℚ)
    (oracle : Nat → DivOutcome) (hok : ∀ i, (oracle i).pend.failAt = none) :
    ∀ (ds : List Divergencia) (i n : Nat),
      (aplicarAux "manual" limite usuario oracle i n
          ds).2.2.pendentes_aprovacao = ds.length ∧
      (aplicarAux "manual" limite usuario oracle i n ds).2.2.erros = 0 ∧
      (aplicarAux "manual" limite usuario oracle i n
          ds).2.2.corrigidas_automaticamente = 0 := by
  intro ds
  induction ds with
  | nil => intro i n; simp [aplicarAux]
  | cons d ds ih =>
      intro i n
      rcases hp : processOne "manual" limite usuario (oracle i) d n
        with ⟨ev, n2, det, b⟩
      have hb : b = Bucket.pendente := by
        have h := processOne_manual_ok limite usuario (oracle i) d n (hok i)
        rw [hp] at h
        exact h
      subst hb
      rcases hr : aplicarAux "manual" limite usuario oracle (i + 1) n2 ds
        with ⟨evs, n3, r⟩
      have h2 := ih (i + 1) n2
      rw [hr] at h2
      simp at h2
      simp [aplicarAux, hp, hr, h2.1, h2.2.1, h2.2.2]
      all_goals omega

/-- Claim C9: apply with mode 'manual' never issues an UPDATE against the
target table, and — when the ledger accepts every write — each divergence is
registered under a DETECT operation with persisted status DETECTED and the
operation finalized SUCCESS, the whole batch ending pending with zero errors
and zero auto-corrections. -/
theorem claimC9_manual_frame (divergencias : List Divergencia)
    (usuario : String) (limite : ℚ) (oracle : Nat → DivOutcome) (n : Nat) :
    (∀ e ∈ (aplicar_correcoes divergencias "manual" usuario limite oracle
        n).1, e.isUpdateTarget = false) ∧
    ((∀ i, (oracle i).pend.failAt = none) →
      (aplicar_correcoes divergencias "manual" usuario limite oracle
          n).2.pendentes_aprovacao = divergencias.length ∧
      (aplicar_correcoes divergencias "manual" usuario limite oracle
          n).2.erros = 0 ∧
      (aplicar_correcoes divergencias "manual" usuario limite oracle
          n).2.corrigidas_automaticamente = 0 ∧
      (∀ (pre post : List Divergencia) (d : Divergencia),
        divergencias = pre ++ d :: post →
        ∃ opId divId,
          LedgerEvent.beginOp opId "DETECT"
              ("Divergencia detectada: " ++ d.tipo) "sistema" "AUTOMATION"
              none ∈
            (aplicar_correcoes divergencias "manual" usuario limite oracle
              n).1 ∧
          LedgerEvent.recordDiv divId opId d.idnfsexterno d.tipo "DETECTED"
              d.confianca ∈
            (aplicar_correcoes divergencias "manual" usuario limite oracle
              n).1 ∧
          LedgerEvent.endOp opId "SUCCESS" 0 none ∈
            (aplicar_correcoes divergencias "manual" usuario limite oracle
              n).1)) := by
  constructor
  · exact aplicarAux_manual_no_update usuario limite oracle divergencias 0 n
  · intro hok
    have hc := aplicarAux_manual_counts usuario limite oracle hok
      divergencias 0 n
    refine ⟨hc.1, hc.2.1, hc.2.2, ?_⟩
    rintro pre post d rfl
    obtain ⟨m, -, hev⟩ :=
      aplicarAux_at "manual" limite usuario oracle pre d post 0 n
    simp only [Nat.zero_add] at hev
    have hone : ∀ e ∈ (runPend (oracle pre.length).pend d m).1,
        e ∈ (aplicarAux "manual" limite usuario oracle 0 n
          (pre ++ d :: post)).1 := by
      intro e he
      apply hev
      rw [processOne_manual_events]
      exact he
    refine ⟨m, m + 1, ?_, ?_, ?_⟩ <;>
      · apply hone
        simp [runPend, hok pre.length]

/-- Witness for claim C9 on a concrete one-element batch in mode manual with
a willing ledger: the batch ends all-pending with zero errors. -/
theorem claimC9_witness :
    (aplicar_correcoes [pendDiv] "manual" "sistema" (95/100) okOracle
        0).2.pendentes_aprovacao = 1 ∧
    (aplicar_correcoes [pendDiv] "manual" "sistema" (95/100) okOracle
        0).2.erros = 0 := by
  have h := (claimC9_manual_frame [pendDiv] "sistema" (95/100) okOracle 0).2
    (fun _ => rfl)
  exact ⟨h.1, h.2.1⟩

/-- Witness for claim C1's amended theorem at a concrete run. -/
theorem claimC1_witness :
    ∃ rc : Resultado,
      (executar dias0 [tradeRow] "2025-08-01" "2026-05-31" "manual" okOracle
          (some "disk full") NotifyOutcome.sent none).resultado_correcoes
        = some rc ∧
      ((executar dias0 [tradeRow] "2025-08-01" "2026-05-31" "manual" okOracle
          (some "disk full") NotifyOutcome.sent none).status = "COMPLETED" ↔
        rc.erros = 0) ∧
      ((executar dias0 [tradeRow] "2025-08-01" "2026-05-31" "manual" okOracle
          (some "disk full") NotifyOutcome.sent none).status = "PARTIAL" ↔
        rc.erros ≠ 0) ∧
      (executar dias0 [tradeRow] "2025-08-01" "2026-05-31" "manual" okOracle
          (some "disk full") NotifyOutcome.sent none).status =
        (executar dias0 [tradeRow] "2025-08-01" "2026-05-31" "manual" okOracle
          none NotifyOutcome.sent none).status :=
  claimC1_amended dias0 [tradeRow] "2025-08-01" "2026-05-31" "manual"
    okOracle (some "disk full") NotifyOutcome.sent

/-- Witness for claim C5 at a concrete one-element batch. -/
theorem claimC5_witness :
    (aplicar_correcoes [tmDiv] "manual" "sistema" (95/100) okOracle
        0).2.total_divergencias = [tmDiv].length ∧
    (aplicar_correcoes [tmDiv] "manual" "sistema" (95/100) okOracle
        0).2.corrigidas_automaticamente
      + (aplicar_correcoes [tmDiv] "manual" "sistema" (95/100) okOracle
          0).2.pendentes_aprovacao
      + (aplicar_correcoes [tmDiv] "manual" "sistema" (95/100) okOracle
          0).2.erros
      = (aplicar_correcoes [tmDiv] "manual" "sistema" (95/100) okOracle
          0).2.total_divergencias ∧
    (aplicar_correcoes [tmDiv] "manual" "sistema" (95/100) okOracle
        0).2.detalhes.length = [tmDiv].length :=
  claimC5_summary_counts [tmDiv] "manual" "sistema" (95/100) okOracle 0

/-- Witness for claim C7 at a concrete failing write on an empty ledger
connection. -/
theorem claimC7_witness :
    iniciar_operacao (some "db down") "UPDATE" "d" "u" "AUTOMATION" none 4
        ⟨[], []⟩
      = .err { committed := [], pending := [] } "db down" ∧
    finalizar_operacao (some "db down") 1 "SUCCESS" 0 none ⟨[], []⟩
      = .err { committed := [], pending := [] } "db down" ∧
    registrar_divergencia (some "db down") 1 "NF1" "T" 1 4 ⟨[], []⟩
      = .err { committed := [], pending := [] } "db down" ∧
    atualizar_status_divergencia (some "db down") 2 "APPROVED" none none
        ⟨[], []⟩
      = .err { committed := [], pending := [] } "db down" ∧
    iniciar_sessao_processamento (some "db down") "DAILY_AUTO" 4 ⟨[], []⟩
      = .err { committed := [], pending := [] } "db down" ∧
    finalizar_sessao_processamento (some "db down") 3 "SUCCESS" ⟨0, 0, 0, 0, 0⟩
        ⟨[], []⟩
      = .err { committed := [], pending := [] } "db down" :=
  claimC7_ledger_rollback_reraise "db down" ⟨[], []⟩ "UPDATE" "d" "u"
    "AUTOMATION" "APPROVED" "SUCCESS" "DAILY_AUTO" none 1 2 3 4 0 none "NF1"
    "T" 1 none none ⟨0, 0, 0, 0, 0⟩

end FinancialEtl
